import Mathlib

/-!
Verification development for the quiz application (pages/1_Quiz.py).

The two core components are embedded shallowly:
* `parse_questions_csv` — the CSV-to-question-bank parser (source lines 102-162),
  modelled as a pure function over the list of CSV rows (each row a list of
  cells, as produced by the CSV reader; the header row is the first element).
* the answer-submission handler and session-summary construction
  (source lines 293-316, 347-352, 392-400), modelled as a step function on an
  explicit quiz-session state.

Python string primitives used by the source (`strip`, `startswith`, `isdigit`,
`isalpha`, `upper`, `split(":", 1)`, slicing, `sorted`) are modelled over
`List Char` with ASCII semantics, which covers every character class the
source's patterns mention.
-/

/-- Python `pre.isPrefixOf s` on char lists: `listPre p l` is true iff `p` is an
initial run of `l` (models `str.startswith`). -/
def listPre : List Char → List Char → Bool
  | [], _ => true
  | _ :: _, [] => false
  | p :: ps, c :: cs => (p == c) && listPre ps cs

/-- Python `s.startswith(pre)`. -/
def startsWithS (s pre : String) : Bool :=
  listPre pre.toList s.toList

/-- Drop leading whitespace characters. -/
def dropWS (l : List Char) : List Char :=
  l.dropWhile Char.isWhitespace

/-- Python `s.strip()`: remove leading and trailing whitespace. -/
def pyStrip (s : String) : String :=
  String.mk ((dropWS ((dropWS s.toList).reverse)).reverse)

/-- Python `s.isdigit()`: nonempty and every character a digit. -/
def pyIsDigit (s : String) : Bool :=
  !s.toList.isEmpty && s.toList.all Char.isDigit

/-- Python `int(s)` for a digit string. -/
def digitsToNat (l : List Char) : Nat :=
  l.foldl (fun a c => a * 10 + (c.toNat - 48)) 0

/-- Everything after the first occurrence of `c`, i.e. Python
`s.split(c, 1)[1]` (empty when `c` is absent; the source only calls it on
rows guaranteed to contain a colon). -/
def afterChar (c : Char) : List Char → List Char
  | [] => []
  | x :: xs => if x == c then xs else afterChar c xs

/-- One parsed question, mirroring the `current_question` dict of the source
(line 128-132). -/
structure Question where
  question_number : Nat
  question_text : List (String × Option String)
  answer_choices : List (String × Option String)
  correct_answer : String
  community_vote : List String
  user_answer : Option String
deriving Repr, DecidableEq

/-- The fresh question opened at a `#<digits>` marker row (source lines
128-132): empty text, choices and votes, `correct_answer = ""`. -/
def freshQuestion (n : Nat) : Question :=
  { question_number := n, question_text := [], answer_choices := [],
    correct_answer := "", community_vote := [], user_answer := none }

/-- Source line 125: `row_content.startswith("#") and row_content[1:].isdigit()`. -/
def isQMarker (rc : String) : Bool :=
  startsWithS rc "#" && pyIsDigit (String.mk (rc.toList.drop 1))

/-- Source line 129: `int(row_content[1:])`. -/
def markerNumber (rc : String) : Nat :=
  digitsToNat (rc.toList.drop 1)

/-- Guard for position 2 of a choice row: a literal dot then a whitespace
character (the `\.\s` part of the source's regex at line 134). -/
def dotWs : List Char → Bool
  | '.' :: c :: _ => c.isWhitespace
  | _ => false

/-- Source line 134: `re.match(r"^[A-F]\.\s", row_content)`. -/
def isChoiceRow (rc : String) : Bool :=
  match rc.toList with
  | a :: rest => ('A' ≤ a && a ≤ 'F') && dotWs rest
  | [] => false

/-- Source line 140-141: take the part after the first colon, strip it, keep
alphabetic characters only, upper-case. -/
def extractAnswerLetters (rc : String) : String :=
  String.mk ((((pyStrip (String.mk (afterChar ':' rc.toList))).toList).filter
    Char.isAlpha).map Char.toUpper)

/-- Insertion-ordered dictionary update, mirroring Python
`questions[k] = v`: an existing key keeps its position and gets the new
value; a new key is appended. -/
def dictInsert (d : List (Nat × Question)) (k : Nat) (v : Question) :
    List (Nat × Question) :=
  if d.any (fun p => p.1 == k) then
    d.map (fun p => if p.1 == k then (k, v) else p)
  else d ++ [(k, v)]

/-- Lookup in the insertion-ordered dictionary. -/
def dictLookup (d : List (Nat × Question)) (k : Nat) : Option Question :=
  (d.find? (fun p => p.1 == k)).map Prod.snd

/-- Parser loop state: the accumulated dictionary (`questions`) and the open
question (`current_question`). -/
abbrev ParseState := List (Nat × Question) × Option Question

/-- Seal the open question into the dictionary, if one is open (source
lines 126-127 and 153-154). -/
def sealCurrent (st : ParseState) : List (Nat × Question) :=
  match st.2 with
  | none => st.1
  | some q => dictInsert st.1 q.question_number q

/-- Classify one nonempty trimmed first cell, exactly following the
if/elif chain of source lines 125-151. -/
def processCell (st : ParseState) (rc : String) : ParseState :=
  if isQMarker rc then
    (sealCurrent st, some (freshQuestion (markerNumber rc)))
  else
    match st.2 with
    | none => st
    | some q =>
      if isChoiceRow rc then
        (st.1, some { q with answer_choices := q.answer_choices ++ [(rc, none)] })
      else if startsWithS rc "https://i.postimg.cc" && !q.answer_choices.isEmpty then
        (st.1, some { q with answer_choices :=
          q.answer_choices.dropLast ++ [((q.answer_choices.getLastD ("", none)).1, some rc)] })
      else if startsWithS rc "Correct Answer:" || startsWithS rc "Suggested Answer:" then
        (st.1, some { q with correct_answer := extractAnswerLetters rc })
      else if startsWithS rc "Community vote distribution" then
        st
      else if rc == "" then
        st
      else
        if q.answer_choices.isEmpty then
          if startsWithS rc "https://i.postimg.cc" then
            (st.1, some { q with question_text := q.question_text ++ [("", some rc)] })
          else
            (st.1, some { q with question_text := q.question_text ++ [(rc, none)] })
        else
          (st.1, some { q with community_vote := q.community_vote ++ [rc] })

/-- Process one CSV row: skip it when it has no cells or its first cell is
blank after stripping (source line 122), else classify the stripped cell. -/
def processRow (st : ParseState) (row : List String) : ParseState :=
  match row with
  | [] => st
  | c :: _ =>
    let rc := pyStrip c
    if rc == "" then st else processCell st rc

/-- The parser of source lines 116-162, over the rows delivered by the CSV
reader: skip the header row, fold the classifier over the remaining rows,
seal the last open question, return the dictionary values in order. -/
def parse_questions_csv (rows : List (List String)) : List Question :=
  (sealCurrent ((rows.drop 1).foldl processRow (([], none) : ParseState))).map Prod.snd

/-- Outcome signal of the load-and-parse pipeline: the fetch error of source
lines 112-114, the reader exception of lines 156-158, the empty-result
warning of lines 160-161, or a successful load. -/
inductive LoadOutcome where
  | sourceUnavailable
  | parseError
  | parseWarning
  | loaded (qs : List Question)
deriving Repr, DecidableEq

/-- The full load pipeline around `parse_questions_csv`: `fetched` abstracts
the blob download (lines 107-114) and `readCsv` abstracts the CSV reader,
whose failure is caught at lines 156-158. Every branch returns a question
list (empty on failure), exactly as the source returns `[]` on each error
path. -/
def load_questions (fetched : Except String String)
    (readCsv : String → Except String (List (List String))) :
    LoadOutcome × List Question :=
  match fetched with
  | .error _ => (.sourceUnavailable, [])
  | .ok content =>
    match readCsv content with
    | .error _ => (.parseError, [])
    | .ok rows =>
      let qs := parse_questions_csv rows
      if qs.isEmpty then (.parseWarning, []) else (.loaded qs, qs)

/-- Python `"".join(sorted(selection))` (source lines 298-299): sort the
selected letters ascending and concatenate. -/
def sortedSel (sel : List Char) : String :=
  String.mk (List.insertionSort (fun a b => a ≤ b) sel)

/-- The correctness check of the submit handler (source lines 298-301):
normalize the selection and the stored correct answer by sorting, compare
by exact string equality. Returns `(is_correct, normalized user answer)`. -/
def evaluateSel (q : Question) (sel : List Char) : Bool × String :=
  let user_answer_str_sorted := sortedSel sel
  let correct_answer_str_sorted := sortedSel q.correct_answer.toList
  (user_answer_str_sorted == correct_answer_str_sorted, user_answer_str_sorted)

/-- One record of `user_answers_details` (source lines 309-315). -/
structure AttemptDetail where
  question_number : Nat
  question_text_summary : String
  correct_answer : String
  user_answer : String
  result : String
deriving Repr, DecidableEq

/-- The summary string of source lines 304-307: `"N/A"` when `question_text`
is empty, else the text component of its first entry, truncated to 100
characters with `"..."` appended when longer than 100. -/
def questionTextSummary (qt : List (String × Option String)) : String :=
  match qt with
  | [] => "N/A"
  | (first_line, _) :: _ =>
    if first_line.length > 100 then String.mk (first_line.toList.take 100) ++ "..."
    else first_line

/-- The quiz-session state held in `st.session_state` (source lines 188-194),
restricted to the fields the submit/next handlers read and write. -/
structure QuizState where
  questions : List Question
  current_question_index : Nat
  score : Nat
  total_attempted : Nat
  answer_submitted : Bool
  quiz_complete : Bool
  user_answers_details : List AttemptDetail
deriving Repr, DecidableEq

/-- The state right after the start-quiz reset (source lines 202-219) with a
freshly parsed question list. -/
def initialQuizState (qs : List Question) : QuizState :=
  { questions := qs, current_question_index := 0, score := 0,
    total_attempted := 0, answer_submitted := false, quiz_complete := false,
    user_answers_details := [] }

/-- Failure kind of the submit handler: the source line 294 warning path
(`"Please select an answer."`) taken when the selection is empty. -/
inductive SubmitError where
  | invalidInput
deriving Repr, DecidableEq

/-- The submit handler of source lines 293-316. An empty selection is
rejected with no state change (line 294); otherwise the handler marks the
answer submitted, increments the attempted counter, writes the normalized
user answer into the displayed question, bumps the score on a correct
answer, and appends one detail record. The `none` branch of the question
lookup is unreachable in the source (the handler renders only while
`current_question_index < len(questions)`, line 234). -/
def submitAnswer (st : QuizState) (selection : List Char) :
    Except SubmitError QuizState :=
  if selection.isEmpty then .error .invalidInput
  else
    match st.questions.get? st.current_question_index with
    | none => .ok st
    | some q =>
      let ev := evaluateSel q selection
      let is_correct := ev.1
      let user_answer_str_sorted := ev.2
      let correct_answer_str_sorted := sortedSel q.correct_answer.toList
      let detail : AttemptDetail := {
        question_number := q.question_number,
        question_text_summary := questionTextSummary q.question_text,
        correct_answer := correct_answer_str_sorted,
        user_answer := user_answer_str_sorted,
        result := if is_correct then "Correct" else "Incorrect" }
      .ok { st with
        answer_submitted := true,
        total_attempted := st.total_attempted + 1,
        questions := st.questions.set st.current_question_index
          { q with user_answer := some user_answer_str_sorted },
        score := if is_correct then st.score + 1 else st.score,
        user_answers_details := st.user_answers_details ++ [detail] }

/-- The submit handler's effect on the page state: on the warning path the
state is left untouched. -/
def applySubmit (st : QuizState) (selection : List Char) : QuizState :=
  match submitAnswer st selection with
  | .error _ => st
  | .ok st2 => st2

/-- User actions that drive the session forward: submitting a selection
(lines 293-316), the next/finish button (lines 317-330), ending early
(lines 331-336). -/
inductive QuizAction where
  | submit (sel : List Char)
  | next
  | endNow

/-- One step of the quiz-session state machine. The next/finish button is
rendered only after a submission (line 318); it either advances the index or
completes the quiz (lines 322-330). -/
def stepQuiz (st : QuizState) : QuizAction → QuizState
  | .submit sel => applySubmit st sel
  | .next =>
    if st.answer_submitted then
      if st.current_question_index ≥ st.questions.length - 1 then
        { st with quiz_complete := true }
      else
        { st with current_question_index := st.current_question_index + 1,
                  answer_submitted := false }
    else st
  | .endNow => { st with quiz_complete := true }

/-- The counter invariant of the session state: attempted equals the number
of detail records and score equals the number of records marked Correct. -/
def QuizInv (st : QuizState) : Prop :=
  st.total_attempted = st.user_answers_details.length ∧
  st.score = (st.user_answers_details.filter (fun d => d.result == "Correct")).length

instance (st : QuizState) : Decidable (QuizInv st) := by
  unfold QuizInv; infer_instance

/-- Round-half-to-even to an integer, the semantics of Python `round` on the
exact value. -/
def roundHalfEven (q : ℚ) : ℤ :=
  let f := ⌊q⌋
  let frac := q - (f : ℚ)
  if frac < 1 / 2 then f
  else if 1 / 2 < frac then f + 1
  else if f % 2 = 0 then f else f + 1

/-- Python `round(x, 2)` on the exact value. -/
def round2 (q : ℚ) : ℚ :=
  (roundHalfEven (q * 100) : ℚ) / 100

/-- Source line 349: `(score / total_attempted * 100) if total_attempted > 0 else 0`,
read over exact rationals. -/
def correctPercentageQ (score total_attempted : Nat) : ℚ :=
  if 0 < total_attempted then (score : ℚ) / (total_attempted : ℚ) * 100 else 0

/-- The persisted session record (source lines 392-400), restricted to the
fields computed by the core (identifiers and timestamps are supplied by the
caller). -/
structure SessionData where
  quiz_set_name : String
  attempt_number : Nat
  total_questions_in_set : Nat
  questions_attempted : Nat
  questions_correct : Nat
  correct_percentage : ℚ
  duration_seconds : Nat
  attempt_details : List AttemptDetail
deriving Repr, DecidableEq

/-- Construction of the session record from the completed-state counters
(source lines 347-352 and 392-400). -/
def build_session_data (quiz_set_name : String) (attempt_number : Nat)
    (total_questions_in_set : Nat) (duration_seconds : Nat) (st : QuizState) :
    SessionData :=
  { quiz_set_name := quiz_set_name, attempt_number := attempt_number,
    total_questions_in_set := total_questions_in_set,
    questions_attempted := st.total_attempted,
    questions_correct := st.score,
    correct_percentage := round2 (correctPercentageQ st.score st.total_attempted),
    duration_seconds := duration_seconds,
    attempt_details := st.user_answers_details }

/-! ### Helper lemmas -/

theorem listPre_cons_iff (p : Char) (ps l : List Char) :
    listPre (p :: ps) l = true ↔ ∃ t, l = p :: t ∧ listPre ps t = true := by
  cases l with
  | nil => simp [listPre]
  | cons c cs =>
    simp only [listPre, Bool.and_eq_true, beq_iff_eq]
    constructor
    · rintro ⟨rfl, h⟩; exact ⟨cs, rfl, h⟩
    · rintro ⟨t, ht, h⟩
      cases ht
      exact ⟨rfl, h⟩

theorem startsWithS_false_of_head_ne (rc p : String) (c d : Char) (t ds : List Char)
    (hrc : rc.toList = c :: t) (hp : p.toList = d :: ds) (hne : (d == c) = false) :
    startsWithS rc p = false := by
  rw [startsWithS, hp, hrc]
  simp [listPre, hne]

theorem toList_ne_nil_beq_empty (rc : String) (c : Char) (t : List Char)
    (hrc : rc.toList = c :: t) : (rc == "") = false := by
  rw [beq_eq_false_iff_ne]
  intro h
  rw [h] at hrc
  exact List.noConfusion hrc

theorem isQMarker_false_of_head (rc : String) (c : Char) (t : List Char)
    (hrc : rc.toList = c :: t) (hne : ('#' == c) = false) : isQMarker rc = false := by
  rw [isQMarker, startsWithS_false_of_head_ne rc "#" c '#' t [] hrc rfl hne, Bool.false_and]

theorem isChoiceRow_false_of_head (rc : String) (c : Char) (t : List Char)
    (hrc : rc.toList = c :: t) (hne : ('A' ≤ c && c ≤ 'F') = false) :
    isChoiceRow rc = false := by
  rw [isChoiceRow.eq_def, hrc]
  simp [hne]

theorem https_head (rc : String) (h : startsWithS rc "https://i.postimg.cc" = true) :
    ∃ t, rc.toList = 'h' :: t := by
  rw [startsWithS] at h
  have he : "https://i.postimg.cc".toList = 'h' :: "ttps://i.postimg.cc".toList := rfl
  rw [he] at h
  obtain ⟨t, ht, _⟩ := (listPre_cons_iff _ _ _).mp h
  exact ⟨t, ht⟩

theorem dictInsert_lookup (d : List (Nat × Question)) (k : Nat) (v : Question) :
    dictLookup (dictInsert d k v) k = some v := by
  induction d with
  | nil => simp [dictInsert, dictLookup, List.find?]
  | cons p rest ih =>
    rcases p with ⟨k1, v1⟩
    by_cases hk : k1 = k
    · subst hk
      simp [dictInsert, dictLookup, List.find?]
    · have hk1 : (k1 == k) = false := by simpa using hk
      cases hr : rest.any (fun p => p.1 == k) with
      | true =>
        have hcond : (((k1, v1) :: rest).any (fun p => p.1 == k)) = true := by
          simp only [List.any_cons, hk1, hr, Bool.false_or]
        have ihr : dictLookup (rest.map (fun p => if p.1 == k then (k, v) else p)) k = some v := by
          have h2 := ih
          rwa [dictInsert, if_pos hr] at h2
        rw [dictInsert, if_pos hcond]
        simpa [dictLookup, List.find?, hk1] using ihr
      | false =>
        have hcond : (((k1, v1) :: rest).any (fun p => p.1 == k)) = false := by
          simp only [List.any_cons, hk1, hr, Bool.or_self]
        have ihr : dictLookup (rest ++ [(k, v)]) k = some v := by
          have h2 := ih
          rwa [dictInsert, if_neg (by simp [hr])] at h2
        rw [dictInsert, if_neg (by simp [hcond])]
        simpa [dictLookup, List.find?, hk1] using ihr

theorem quizInv_init (qs : List Question) : QuizInv (initialQuizState qs) := by
  constructor <;> rfl

/-- The detail record the submit handler appends (source lines 309-315). -/
def submitDetail (q : Question) (sel : List Char) : AttemptDetail :=
  { question_number := q.question_number,
    question_text_summary := questionTextSummary q.question_text,
    correct_answer := sortedSel q.correct_answer.toList,
    user_answer := (evaluateSel q sel).2,
    result := if (evaluateSel q sel).1 then "Correct" else "Incorrect" }

/-- The state the submit handler produces on the success path. -/
def submitResultState (st : QuizState) (q : Question) (sel : List Char) : QuizState :=
  { st with
    answer_submitted := true,
    total_attempted := st.total_attempted + 1,
    questions := st.questions.set st.current_question_index
      { q with user_answer := some (evaluateSel q sel).2 },
    score := if (evaluateSel q sel).1 then st.score + 1 else st.score,
    user_answers_details := st.user_answers_details ++ [submitDetail q sel] }

theorem submitAnswer_empty (st : QuizState) (sel : List Char) (hsel : sel.isEmpty = true) :
    submitAnswer st sel = Except.error SubmitError.invalidInput := by
  simp only [submitAnswer]
  rw [if_pos hsel]

theorem submitAnswer_noq (st : QuizState) (sel : List Char) (hsel : sel.isEmpty = false)
    (hq : st.questions.get? st.current_question_index = none) :
    submitAnswer st sel = Except.ok st := by
  simp only [submitAnswer]
  rw [if_neg (by simp [hsel]), hq]

theorem submitAnswer_ok (st : QuizState) (sel : List Char) (q : Question)
    (hsel : sel.isEmpty = false)
    (hq : st.questions.get? st.current_question_index = some q) :
    submitAnswer st sel = Except.ok (submitResultState st q sel) := by
  simp only [submitAnswer]
  rw [if_neg (by simp [hsel]), hq]
  rfl

theorem applySubmit_of_err (st : QuizState) (sel : List Char) (e : SubmitError)
    (h : submitAnswer st sel = Except.error e) : applySubmit st sel = st := by
  simp only [applySubmit, h]

theorem applySubmit_of_ok (st st2 : QuizState) (sel : List Char)
    (h : submitAnswer st sel = Except.ok st2) : applySubmit st sel = st2 := by
  simp only [applySubmit, h]

theorem quizInv_applySubmit (st : QuizState) (sel : List Char) (h : QuizInv st) :
    QuizInv (applySubmit st sel) := by
  obtain ⟨h1, h2⟩ := h
  cases hsel : sel.isEmpty with
  | true =>
    rw [applySubmit_of_err st sel SubmitError.invalidInput (submitAnswer_empty st sel hsel)]
    exact ⟨h1, h2⟩
  | false =>
    cases hq : st.questions.get? st.current_question_index with
    | none =>
      rw [applySubmit_of_ok st st sel (submitAnswer_noq st sel hsel hq)]
      exact ⟨h1, h2⟩
    | some q =>
      rw [applySubmit_of_ok st (submitResultState st q sel) sel
        (submitAnswer_ok st sel q hsel hq)]
      have hic : (("Incorrect" : String) == "Correct") = false := by decide
      have hcc : (("Correct" : String) == "Correct") = true := by decide
      cases hev : (evaluateSel q sel).1 with
      | true =>
        constructor
        · simp [submitResultState, h1]
        · simp [submitResultState, submitDetail, List.filter_append, hev, hcc, h2]
      | false =>
        constructor
        · simp [submitResultState, h1]
        · simp [submitResultState, submitDetail, List.filter_append, hev, hic, h2]

theorem quizInv_step (st : QuizState) (a : QuizAction) (h : QuizInv st) :
    QuizInv (stepQuiz st a) := by
  cases a with
  | submit sel => exact quizInv_applySubmit st sel h
  | next =>
    obtain ⟨h1, h2⟩ := h
    rw [stepQuiz]
    by_cases hs : st.answer_submitted = true
    · rw [if_pos hs]
      by_cases hl : st.current_question_index ≥ st.questions.length - 1
      · rw [if_pos hl]; exact ⟨h1, h2⟩
      · rw [if_neg hl]; exact ⟨h1, h2⟩
    · rw [if_neg hs]; exact ⟨h1, h2⟩
  | endNow =>
    obtain ⟨h1, h2⟩ := h
    rw [stepQuiz]
    exact ⟨h1, h2⟩

/-- Run a whole session: fold the step function over a list of actions from
the freshly-started state. -/
def runQuiz (qs : List Question) (acts : List QuizAction) : QuizState :=
  acts.foldl stepQuiz (initialQuizState qs)

theorem quizInv_run (qs : List Question) (acts : List QuizAction) :
    QuizInv (runQuiz qs acts) := by
  rw [runQuiz]
  have hgen : ∀ (st : QuizState), QuizInv st → QuizInv (acts.foldl stepQuiz st) := by
    induction acts with
    | nil => intro st h; exact h
    | cons a rest ih =>
      intro st h
      exact ih (stepQuiz st a) (quizInv_step st a h)
  exact hgen (initialQuizState qs) (quizInv_init qs)

theorem round2_zero : round2 0 = 0 := by
  norm_num [round2, roundHalfEven]

/-! ### Claim theorems -/

/-- C1: for every well-formed single-question CSV input — any header row,
then rows whose first cells are `#1`, `A. Paris`, `Correct Answer: A` —
`parse_questions_csv` returns exactly one Question with number 1, correct
answer "A", and the single choice `("A. Paris", none)`. -/
theorem parse_single_question_c1 (hdr t1 t2 t3 : List String) :
    parse_questions_csv [hdr, "#1" :: t1, "A. Paris" :: t2, "Correct Answer: A" :: t3] =
      [{ question_number := 1, question_text := [], answer_choices := [("A. Paris", none)],
         correct_answer := "A", community_vote := [], user_answer := none }] := rfl

/-- C3: exactly the rows matching `^#<digits>$` start a new question — a
marker row seals the open question (keyed by its number, last write wins,
as `dictInsert_lookup` shows for the sealing of duplicates) and opens a
fresh empty question; a non-marker row with no open question is discarded;
a non-marker row never opens a question nor touches the sealed collection;
and parsing two `#5` blocks keeps only the later block's data. -/
theorem parse_marker_rows_c3 :
    (∀ (st : ParseState) (rc : String), isQMarker rc = true →
        processCell st rc = (sealCurrent st, some (freshQuestion (markerNumber rc)))) ∧
    (∀ (n : Nat), freshQuestion n =
        { question_number := n, question_text := [], answer_choices := [],
          correct_answer := "", community_vote := [], user_answer := none }) ∧
    (∀ (st : ParseState) (rc : String), isQMarker rc = false → st.2 = none →
        processCell st rc = st) ∧
    (∀ (d : List (Nat × Question)) (q : Question) (rc : String), isQMarker rc = false →
        (processCell (d, some q) rc).1 = d ∧
        ((processCell (d, some q) rc).2.map (fun q2 => q2.question_number) =
          some q.question_number)) ∧
    (∀ (d : List (Nat × Question)) (k : Nat) (v : Question),
        dictLookup (dictInsert d k v) k = some v) ∧
    (parse_questions_csv
        [["h"], ["#5"], ["Old"], ["Correct Answer: A"], ["#5"], ["New"], ["Correct Answer: B"]] =
      [{ question_number := 5, question_text := [("New", none)], answer_choices := [],
         correct_answer := "B", community_vote := [], user_answer := none }]) := by
  refine ⟨?_, ?_, ?_, ?_, ?_, ?_⟩
  · intro st rc h
    simp only [processCell]
    rw [if_pos h]
  · intro n
    rfl
  · intro st rc h h2
    rcases st with ⟨d, cur⟩
    cases cur with
    | none =>
      simp only [processCell]
      rw [if_neg (by simp [h])]
    | some q => exact absurd h2 (by simp)
  · intro d q rc h
    simp only [processCell]
    rw [if_neg (by simp [h])]
    by_cases h1 : isChoiceRow rc = true
    · rw [if_pos h1]; exact ⟨rfl, rfl⟩
    · rw [if_neg h1]
      by_cases h2 : (startsWithS rc "https://i.postimg.cc" && !q.answer_choices.isEmpty) = true
      · rw [if_pos h2]; exact ⟨rfl, rfl⟩
      · rw [if_neg h2]
        by_cases h3 : (startsWithS rc "Correct Answer:" || startsWithS rc "Suggested Answer:") = true
        · rw [if_pos h3]; exact ⟨rfl, rfl⟩
        · rw [if_neg h3]
          by_cases h4 : startsWithS rc "Community vote distribution" = true
          · rw [if_pos h4]; exact ⟨rfl, rfl⟩
          · rw [if_neg h4]
            by_cases h5 : (rc == "") = true
            · rw [if_pos h5]; exact ⟨rfl, rfl⟩
            · rw [if_neg h5]
              by_cases h6 : q.answer_choices.isEmpty = true
              · rw [if_pos h6]
                by_cases h7 : startsWithS rc "https://i.postimg.cc" = true
                · rw [if_pos h7]; exact ⟨rfl, rfl⟩
                · rw [if_neg h7]; exact ⟨rfl, rfl⟩
              · rw [if_neg h6]; exact ⟨rfl, rfl⟩
  · intro d k v
    exact dictInsert_lookup d k v
  · rfl

/-- C3's witness: the marker clause applied at the concrete marker row `#7`
and the empty parser state. -/
theorem parse_marker_rows_c3_witness :
    processCell (([], none) : ParseState) "#7" =
      (sealCurrent (([], none) : ParseState), some (freshQuestion (markerNumber "#7"))) :=
  parse_marker_rows_c3.1 (([], none) : ParseState) "#7" (by decide)

/-- C4: a row starting with `https://i.postimg.cc` under an open question
becomes the image of the last appended choice when a choice exists
(replacing the last pair, so any previous image is overwritten and the
choice text is kept), and an image-only question-text segment `("", url)`
when no choice exists yet. -/
theorem image_row_attachment_c4 (d : List (Nat × Question)) (q : Question) (rc : String)
    (himg : startsWithS rc "https://i.postimg.cc" = true) :
    (q.answer_choices ≠ [] →
      processCell (d, some q) rc = (d, some { q with answer_choices :=
        q.answer_choices.dropLast ++ [((q.answer_choices.getLastD ("", none)).1, some rc)] })) ∧
    (q.answer_choices = [] →
      processCell (d, some q) rc = (d, some { q with question_text :=
        q.question_text ++ [("", some rc)] })) := by
  obtain ⟨t, ht⟩ := https_head rc himg
  have hm : isQMarker rc = false := isQMarker_false_of_head rc 'h' t ht (by decide)
  have hch : isChoiceRow rc = false := isChoiceRow_false_of_head rc 'h' t ht (by decide)
  have hca : startsWithS rc "Correct Answer:" = false :=
    startsWithS_false_of_head_ne rc "Correct Answer:" 'h' 'C' t
      "orrect Answer:".toList ht rfl (by decide)
  have hsa : startsWithS rc "Suggested Answer:" = false :=
    startsWithS_false_of_head_ne rc "Suggested Answer:" 'h' 'S' t
      "uggested Answer:".toList ht rfl (by decide)
  have hcv : startsWithS rc "Community vote distribution" = false :=
    startsWithS_false_of_head_ne rc "Community vote distribution" 'h' 'C' t
      "ommunity vote distribution".toList ht rfl (by decide)
  have hne : (rc == "") = false := toList_ne_nil_beq_empty rc 'h' t ht
  constructor
  · intro hc
    have hce : q.answer_choices.isEmpty = false := by
      cases hq : q.answer_choices with
      | nil => exact absurd hq hc
      | cons a l => rfl
    simp only [processCell]
    rw [if_neg (by simp [hm]), if_neg (by simp [hch]),
      if_pos (by rw [himg, hce]; rfl)]
  · intro hc
    have hce : q.answer_choices.isEmpty = true := by rw [hc]; rfl
    simp only [processCell]
    rw [if_neg (by simp [hm]), if_neg (by simp [hch]),
      if_neg (by rw [himg, hce]; simp),
      if_neg (by simp [hca, hsa]), if_neg (by simp [hcv]), if_neg (by simp [hne]),
      if_pos hce, if_pos himg]

/-- C4's witness: the choice-exists clause applied at a concrete open
question with one imageless choice and a concrete postimg URL. -/
theorem image_row_attachment_c4_witness :
    processCell
      (([],
        some
          { question_number := 1, question_text := [],
            answer_choices := [("A. X", none)], correct_answer := "",
            community_vote := [], user_answer := none }) : ParseState)
      "https://i.postimg.cc/img.png" =
    ([],
      some
        { question_number := 1, question_text := [],
          answer_choices := [("A. X", some "https://i.postimg.cc/img.png")],
          correct_answer := "", community_vote := [], user_answer := none }) :=
  (image_row_attachment_c4 []
    { question_number := 1, question_text := [], answer_choices := [("A. X", none)],
      correct_answer := "", community_vote := [], user_answer := none }
    "https://i.postimg.cc/img.png" (by decide)).1 (by decide)

theorem sortedSel_perm (l1 l2 : List Char) (h : l1.Perm l2) :
    sortedSel l1 = sortedSel l2 := by
  unfold sortedSel
  congr 1
  refine List.eq_of_perm_of_sorted ?_ (List.sorted_insertionSort (fun a b => a ≤ b) l1)
    (List.sorted_insertionSort (fun a b => a ≤ b) l2)
  exact ((List.perm_insertionSort _ l1).trans h).trans
    (List.perm_insertionSort _ l2).symm

/-- C5: the submit handler's evaluation is order-independent — it normalizes
the selection by sorting and concatenating before the exact string
comparison with the sorted correct answer, so any two selections that are
permutations of each other evaluate identically. -/
theorem evaluate_order_independent_c5 (q : Question) (l1 l2 : List Char)
    (h : l1.Perm l2) : evaluateSel q l1 = evaluateSel q l2 := by
  unfold evaluateSel
  rw [sortedSel_perm l1 l2 h]

/-- C5's witness: the selections B,A and A,B evaluate identically. -/
theorem evaluate_order_independent_c5_witness :
    evaluateSel (freshQuestion 1) ['B', 'A'] = evaluateSel (freshQuestion 1) ['A', 'B'] :=
  evaluate_order_independent_c5 (freshQuestion 1) ['B', 'A'] ['A', 'B'] (by decide)

/-- C6: a question with empty `correct_answer` is never dropped — sealing an
open question always stores it under its number (first clause, and the
concrete parse of a `#1` block with no correct-answer row retains the
question with `correct_answer = ""`), and evaluating such a question with
any non-empty selection yields Incorrect. -/
theorem empty_correct_answer_c6 :
    (∀ (d : List (Nat × Question)) (q : Question),
        dictLookup (sealCurrent (d, some q)) q.question_number = some q) ∧
    (parse_questions_csv [["h"], ["#1"], ["What?"]] =
      [{ question_number := 1, question_text := [("What?", none)], answer_choices := [],
         correct_answer := "", community_vote := [], user_answer := none }]) ∧
    (∀ (q : Question) (sel : List Char), q.correct_answer = "" → sel ≠ [] →
        (evaluateSel q sel).1 = false) := by
  refine ⟨?_, rfl, ?_⟩
  · intro d q
    exact dictInsert_lookup d q.question_number q
  · intro q sel hq hsel
    unfold evaluateSel sortedSel
    rw [hq]
    simp only []
    rw [beq_eq_false_iff_ne]
    intro heq
    have hdata := congrArg String.data heq
    have hlen := congrArg List.length hdata
    rw [(List.perm_insertionSort (fun a b => a ≤ b) sel).length_eq] at hlen
    simp at hlen
    exact hsel hlen

/-- C6's witness: evaluating a fresh (empty-correct-answer) question with the
selection B yields Incorrect. -/
theorem empty_correct_answer_c6_witness :
    (evaluateSel (freshQuestion 3) ['B']).1 = false :=
  empty_correct_answer_c6.2.2 (freshQuestion 3) ['B'] rfl (by decide)

/-- C2: for readable input the pipeline never fails — it returns the parsed
list (possibly partial or empty), signalling `parseWarning` exactly when the
parse produced zero questions; `sourceUnavailable` is raised only by the
fetch step and `parseError` only by the reader step, and the three signals
are pairwise distinct. -/
theorem parse_never_throws_c2 :
    (∀ (content : String) (readCsv : String → Except String (List (List String)))
        (rows : List (List String)), readCsv content = Except.ok rows →
        load_questions (Except.ok content) readCsv =
          (if (parse_questions_csv rows).isEmpty then (LoadOutcome.parseWarning, [])
           else (LoadOutcome.loaded (parse_questions_csv rows), parse_questions_csv rows))) ∧
    (∀ (e : String) (readCsv : String → Except String (List (List String))),
        load_questions (Except.error e) readCsv = (LoadOutcome.sourceUnavailable, [])) ∧
    (∀ (content : String) (readCsv : String → Except String (List (List String)))
        (e : String), readCsv content = Except.error e →
        load_questions (Except.ok content) readCsv = (LoadOutcome.parseError, [])) ∧
    (LoadOutcome.parseWarning ≠ LoadOutcome.parseError ∧
     LoadOutcome.parseWarning ≠ LoadOutcome.sourceUnavailable ∧
     LoadOutcome.parseError ≠ LoadOutcome.sourceUnavailable) := by
  refine ⟨?_, ?_, ?_, by decide, by decide, by decide⟩
  · intro content readCsv rows h
    simp only [load_questions, h]
  · intro e readCsv
    rfl
  · intro content readCsv e h
    simp only [load_questions, h]

/-- C2's witness: the readable-input clause at a concrete reader returning a
one-question CSV. -/
theorem parse_never_throws_c2_witness :
    load_questions (Except.ok "c")
      (fun _ => Except.ok [["h"], ["#1"], ["A. X"], ["Correct Answer: A"]]) =
      (if (parse_questions_csv [["h"], ["#1"], ["A. X"], ["Correct Answer: A"]]).isEmpty
       then (LoadOutcome.parseWarning, [])
       else (LoadOutcome.loaded (parse_questions_csv [["h"], ["#1"], ["A. X"], ["Correct Answer: A"]]),
             parse_questions_csv [["h"], ["#1"], ["A. X"], ["Correct Answer: A"]])) :=
  parse_never_throws_c2.1 "c"
    (fun _ => Except.ok [["h"], ["#1"], ["A. X"], ["Correct Answer: A"]])
    [["h"], ["#1"], ["A. X"], ["Correct Answer: A"]] rfl

/-- C9: submitting with an empty selection fails with the invalid-input kind
and leaves the whole state unchanged — in particular score, attempted
counter, the question list (hence every stored `user_answer`) and the
attempt-detail records. -/
theorem empty_selection_rejected_c9 (st : QuizState) :
    submitAnswer st [] = Except.error SubmitError.invalidInput ∧
    applySubmit st [] = st ∧
    (applySubmit st []).score = st.score ∧
    (applySubmit st []).total_attempted = st.total_attempted ∧
    (applySubmit st []).questions = st.questions ∧
    (applySubmit st []).user_answers_details = st.user_answers_details := by
  have h1 : submitAnswer st [] = Except.error SubmitError.invalidInput :=
    submitAnswer_empty st [] rfl
  have h2 : applySubmit st [] = st :=
    applySubmit_of_err st [] SubmitError.invalidInput h1
  exact ⟨h1, h2, by rw [h2], by rw [h2], by rw [h2], by rw [h2]⟩

/-- C10: the session-step invariant — it holds at the freshly-started state,
every step (submit, next/finish, end-early) preserves it, it bounds the
score by the attempted count, and every accepted submission appends exactly
one detail record while incrementing the attempted counter by one. -/
theorem session_counters_invariant_c10 :
    (∀ (qs : List Question), QuizInv (initialQuizState qs)) ∧
    (∀ (st : QuizState) (a : QuizAction), QuizInv st → QuizInv (stepQuiz st a)) ∧
    (∀ (st : QuizState), QuizInv st → st.score ≤ st.total_attempted) ∧
    (∀ (st : QuizState) (sel : List Char) (q : Question), sel ≠ [] →
        st.questions.get? st.current_question_index = some q →
        ∃ st2, submitAnswer st sel = Except.ok st2 ∧
          st2.user_answers_details = st.user_answers_details ++ [submitDetail q sel] ∧
          st2.total_attempted = st.total_attempted + 1) := by
  refine ⟨quizInv_init, quizInv_step, ?_, ?_⟩
  · intro st h
    rw [h.1, h.2]
    exact List.length_filter_le _ _
  · intro st sel q hsel hq
    have hsel2 : sel.isEmpty = false := by
      cases sel with
      | nil => exact absurd rfl hsel
      | cons a l => rfl
    exact ⟨submitResultState st q sel, submitAnswer_ok st sel q hsel2 hq, rfl, rfl⟩

/-- C10's witness: the invariant is preserved by a concrete submit step from
the freshly-started one-question state. -/
theorem session_counters_invariant_c10_witness :
    QuizInv (stepQuiz (initialQuizState [freshQuestion 1]) (QuizAction.submit ['A'])) :=
  session_counters_invariant_c10.2.1 (initialQuizState [freshQuestion 1])
    (QuizAction.submit ['A']) (by decide)

/-- C7: for every state reachable by running a session, the constructed
session record satisfies `questions_attempted = length of attempt records`,
`questions_correct = number of records marked Correct`, percentage `0` when
nothing was attempted, and `round(100 * correct / attempted, 2)` otherwise. -/
theorem summary_aggregation_c7 (qs : List Question) (acts : List QuizAction)
    (name : String) (attn totq dur : Nat) :
    (build_session_data name attn totq dur (runQuiz qs acts)).questions_attempted =
      (build_session_data name attn totq dur (runQuiz qs acts)).attempt_details.length ∧
    (build_session_data name attn totq dur (runQuiz qs acts)).questions_correct =
      ((build_session_data name attn totq dur (runQuiz qs acts)).attempt_details.filter
        (fun d => d.result == "Correct")).length ∧
    ((build_session_data name attn totq dur (runQuiz qs acts)).questions_attempted = 0 →
      (build_session_data name attn totq dur (runQuiz qs acts)).correct_percentage = 0) ∧
    (0 < (build_session_data name attn totq dur (runQuiz qs acts)).questions_attempted →
      (build_session_data name attn totq dur (runQuiz qs acts)).correct_percentage =
        round2 (100 *
          ((build_session_data name attn totq dur (runQuiz qs acts)).questions_correct : ℚ) /
          ((build_session_data name attn totq dur (runQuiz qs acts)).questions_attempted : ℚ))) := by
  obtain ⟨h1, h2⟩ := quizInv_run qs acts
  refine ⟨?_, ?_, ?_, ?_⟩
  · simpa [build_session_data] using h1
  · simpa [build_session_data] using h2
  · intro h0
    simp only [build_session_data] at h0 ⊢
    rw [correctPercentageQ, if_neg (by omega), round2_zero]
  · intro hpos
    simp only [build_session_data] at hpos ⊢
    rw [correctPercentageQ, if_pos hpos]
    congr 1
    ring

/-- C7's witness: the zero-attempts clause at the empty session — the stored
percentage is 0 with no division performed. -/
theorem summary_aggregation_c7_witness :
    (build_session_data "s" 1 0 0 (runQuiz [] [])).correct_percentage = 0 :=
  (summary_aggregation_c7 [] [] "s" 1 0 0).2.2.1 (by decide)

/-- C8's counterexample: a parsed question whose first body row is a postimg
image URL stores the image-only segment `("", url)` first (second conjunct),
and the attempt record produced by submitting its answer carries
`question_text_summary = ""` — neither the first *text* segment `"Hello"`
nor `"N/A"`, contradicting the claim for questions whose first segment is an
image. -/
theorem question_summary_c8_counterexample :
    ((runQuiz (parse_questions_csv
        [["h"], ["#1"], ["https://i.postimg.cc/x.png"], ["Hello"], ["A. Yes"],
         ["Correct Answer: A"]])
      [QuizAction.submit ['A']]).user_answers_details.map
        (fun d => d.question_text_summary) = [""]) ∧
    ((parse_questions_csv
        [["h"], ["#1"], ["https://i.postimg.cc/x.png"], ["Hello"], ["A. Yes"],
         ["Correct Answer: A"]]).map (fun q => q.question_text) =
      [[("", some "https://i.postimg.cc/x.png"), ("Hello", none)]]) ∧
    ("" : String) ≠ "Hello" ∧ ("" : String) ≠ "N/A" := by
  exact ⟨rfl, rfl, by decide, by decide⟩

/-- C8 as amended: the attempt record's summary is the *text component of
the first segment* of `question_text` (empty for an image-only first
segment): `"N/A"` exactly when `question_text` is empty, the text unchanged
when at most 100 characters, and its first 100 characters plus `"..."`
(103 characters in total) when longer. -/
theorem question_summary_c8_amended :
    (questionTextSummary [] = "N/A") ∧
    (∀ (t : String) (i : Option String) (rest : List (String × Option String)),
        t.length ≤ 100 → questionTextSummary ((t, i) :: rest) = t) ∧
    (∀ (t : String) (i : Option String) (rest : List (String × Option String)),
        100 < t.length →
          questionTextSummary ((t, i) :: rest) = String.mk (t.toList.take 100) ++ "..." ∧
          (questionTextSummary ((t, i) :: rest)).length = 103) ∧
    (∀ (st : QuizState) (sel : List Char) (q : Question), sel ≠ [] →
        st.questions.get? st.current_question_index = some q →
        ∃ st2, submitAnswer st sel = Except.ok st2 ∧
          st2.user_answers_details = st.user_answers_details ++ [submitDetail q sel] ∧
          (submitDetail q sel).question_text_summary = questionTextSummary q.question_text) := by
  refine ⟨rfl, ?_, ?_, ?_⟩
  · intro t i rest h
    simp only [questionTextSummary]
    rw [if_neg (by omega)]
  · intro t i rest h
    have h1 : questionTextSummary ((t, i) :: rest) = String.mk (t.toList.take 100) ++ "..." := by
      simp only [questionTextSummary]
      rw [if_pos h]
    refine ⟨h1, ?_⟩
    rw [h1]
    have he : (String.mk (t.toList.take 100) ++ "...").length =
        (t.toList.take 100 ++ ['.', '.', '.']).length := rfl
    rw [he, List.length_append, List.length_take]
    have h3 : (['.', '.', '.'] : List Char).length = 3 := rfl
    have hl : t.toList.length = t.length := rfl
    rw [h3, hl]
    omega
  · intro st sel q hsel hq
    have hsel2 : sel.isEmpty = false := by
      cases sel with
      | nil => exact absurd rfl hsel
      | cons a l => rfl
    exact ⟨submitResultState st q sel, submitAnswer_ok st sel q hsel2 hq, rfl, rfl⟩

/-- C8's witness: the unchanged-short-text clause at the concrete first
segment `Hi`. -/
theorem question_summary_c8_amended_witness :
    questionTextSummary [("Hi", none)] = "Hi" :=
  question_summary_c8_amended.2.1 "Hi" none [] (by decide)
